import Mathlib

/-!
Verification development for the Salyte Beacon backend (Express/MongoDB).
The definitions below are shallow embeddings of the JavaScript source:
`backend/middleware/auth.js`, `backend/routes/auth.js`,
`backend/models/user.js`, and the global error handler in
`backend/server.js`.  Effectful calls (JWT verification, database lookups,
saves, clocks) are passed in as explicit arguments; machine-level JavaScript
values (undefined, truthiness) are modelled with explicit sum types.
-/

namespace Salyte

/-- Result of an Express middleware: either pass control to the next handler
or terminate the request with an HTTP status and an error label. -/
inductive Outcome where
  | next : Outcome
  | reject (status : Nat) (error : String) : Outcome
deriving DecidableEq, Repr

/-- Status of a rejection, `none` when the middleware passed the request on. -/
def Outcome.statusOf : Outcome → Option Nat
  | .next => none
  | .reject s _ => some s

/-- Property that a middleware outcome either passes or rejects with a status
drawn from the given list. -/
def Outcome.statusIn (o : Outcome) (l : List Nat) : Prop :=
  match o with
  | .next => True
  | .reject s _ => s ∈ l

instance (o : Outcome) (l : List Nat) : Decidable (o.statusIn l) := by
  cases o <;> simp [Outcome.statusIn] <;> infer_instance

/-- Classification of a JavaScript exception by its `name`, as used by the
`catch` blocks in `backend/middleware/auth.js` (`JsonWebTokenError`,
`TokenExpiredError`, anything else). -/
inductive JsErr where
  | jsonWebTokenError
  | tokenExpiredError
  | other
deriving DecidableEq, Repr

/-- Decoded JWT payload (`{ userId, email, role }`). -/
structure Payload where
  userId : Nat
  email : String
  role : String
deriving DecidableEq, Repr

/-- The slice of the user document that the `auth` middleware touches:
whether `user.activity` is set (controls the save of `lastActive`). -/
structure AuthUserDoc where
  hasActivity : Bool
deriving DecidableEq, Repr

/-- Body of the `try` block of the `auth` middleware, with `jwt.verify`,
`User.findById` and `user.save()` passed in as possibly-throwing results. -/
def authTry (token : Option String) (verify : Except JsErr Payload)
    (findUser : Except JsErr (Option AuthUserDoc)) (save : Except JsErr Unit) :
    Except JsErr Outcome :=
  match token with
  | none => Except.ok (Outcome.reject 401 "Access denied")
  | some _ =>
    match verify with
    | Except.error e => Except.error e
    | Except.ok _ =>
      match findUser with
      | Except.error e => Except.error e
      | Except.ok none => Except.ok (Outcome.reject 401 "Invalid token")
      | Except.ok (some doc) =>
        if doc.hasActivity then
          match save with
          | Except.error e => Except.error e
          | Except.ok _ => Except.ok Outcome.next
        else Except.ok Outcome.next

/-- The `auth` middleware of `backend/middleware/auth.js`: the `try` body
followed by the `catch` block that maps `JsonWebTokenError` and
`TokenExpiredError` to 401 and every other exception to 500. -/
def auth (token : Option String) (verify : Except JsErr Payload)
    (findUser : Except JsErr (Option AuthUserDoc)) (save : Except JsErr Unit) :
    Outcome :=
  match authTry token verify findUser save with
  | Except.ok o => o
  | Except.error JsErr.jsonWebTokenError => Outcome.reject 401 "Invalid token"
  | Except.error JsErr.tokenExpiredError => Outcome.reject 401 "Token expired"
  | Except.error JsErr.other => Outcome.reject 500 "Authentication error"

/-- The `optionalAuth` middleware: any exception is swallowed and the request
continues; the first component is the value attached as `req.user`. -/
def optionalAuth (token : Option String) (verify : Except JsErr Payload)
    (findUser : Except JsErr (Option AuthUserDoc)) :
    Option Payload × Outcome :=
  match token with
  | none => (none, Outcome.next)
  | some _ =>
    match verify with
    | Except.error _ => (none, Outcome.next)
    | Except.ok p =>
      match findUser with
      | Except.error _ => (none, Outcome.next)
      | Except.ok none => (none, Outcome.next)
      | Except.ok (some _) => (some p, Outcome.next)

/-- The `authorize(...roles)` middleware: 401 when `req.user` is absent,
403 when the user's role is not among the allowed roles. -/
def authorize (roles : List String) (user : Option Payload) : Outcome :=
  match user with
  | none => Outcome.reject 401 "Authentication required"
  | some u =>
    if roles.contains u.role then Outcome.next
    else Outcome.reject 403 "Access forbidden"

/-- A user permission entry (`{ resource, actions }`) from the User schema. -/
structure Permission where
  resource : String
  actions : List String
deriving DecidableEq, Repr

/-- A JavaScript value that is either `undefined` or a boolean, the possible
results of `permission && permission.actions.includes(action)`. -/
inductive JsReturn where
  | undefinedV
  | boolV (b : Bool)
deriving DecidableEq, Repr

/-- JavaScript truthiness of a `JsReturn`. -/
def JsReturn.truthy : JsReturn → Bool
  | .undefinedV => false
  | .boolV b => b

/-- The `hasPermission` instance method of `backend/models/user.js`:
admins pass unconditionally; otherwise the first permissions entry whose
`resource` matches is found and its `actions` checked (yielding `undefined`
when no entry matches, a boolean otherwise). -/
def hasPermission (role : String) (perms : List Permission)
    (resource action : String) : JsReturn :=
  if role = "admin" then JsReturn.boolV true
  else
    match perms.find? (fun p => p.resource = resource) with
    | none => JsReturn.undefinedV
    | some p => JsReturn.boolV (p.actions.contains action)

/-- The slice of the user document used by `requirePermission`. -/
structure PermUserDoc where
  role : String
  permissions : List Permission
deriving DecidableEq, Repr

/-- The `requirePermission(resource, action)` middleware. -/
def requirePermission (resource action : String)
    (userDoc : Option PermUserDoc) : Outcome :=
  match userDoc with
  | none => Outcome.reject 401 "Authentication required"
  | some d =>
    if (hasPermission d.role d.permissions resource action).truthy then
      Outcome.next
    else Outcome.reject 403 "Permission denied"

/-- The `requireEmailVerification` middleware, keyed on `userDoc.isVerified`. -/
def requireEmailVerification (userDoc : Option Bool) : Outcome :=
  match userDoc with
  | none => Outcome.reject 401 "Authentication required"
  | some isVerified =>
    if isVerified then Outcome.next
    else Outcome.reject 403 "Email verification required"

/-! Per-user rate limiting (`userRateLimit` in `backend/middleware/auth.js`).
The process-local `Map` of request counters is modelled extensionally as a
function from user ids to optional entries. -/

/-- An entry of the `requestCounts` map: `{ count, resetTime }`. -/
structure RLEntry where
  count : Nat
  resetTime : Nat
deriving DecidableEq, Repr

/-- The `requestCounts` map, keyed by user id (or IP). -/
def RLMap : Type := String → Option RLEntry

/-- JavaScript `Map.set`. -/
def rlSet (m : RLMap) (k : String) (v : RLEntry) : RLMap :=
  fun k1 => if k1 = k then some v else m k1

/-- The cleanup loop deleting every entry whose `resetTime` lies in the past. -/
def rlCleanup (m : RLMap) (now : Nat) : RLMap :=
  fun k =>
    match m k with
    | some e => if e.resetTime < now then none else some e
    | none => none

/-- Normalisation of a single optional entry at a given time: an expired entry
is indistinguishable from an absent one. -/
def rlNorm (now : Nat) : Option RLEntry → Option RLEntry
  | some e => if e.resetTime < now then none else some e
  | none => none

/-- The `X-RateLimit-*` headers set on admitted requests. -/
structure RLHeaders where
  limit : Nat
  remaining : Int
  reset : Nat
deriving DecidableEq, Repr

/-- Decision of one `userRateLimit` invocation. -/
inductive RLDecision where
  | admitted (headers : RLHeaders)
  | rejected (resetTime : Nat)
deriving DecidableEq, Repr

/-- Whether the decision admitted the request. -/
def RLDecision.isAdmitted : RLDecision → Bool
  | .admitted _ => true
  | .rejected _ => false

/-- The middleware outcome of a rate-limit decision (the rejection branch
responds with status 429). -/
def rlOutcome : RLDecision → Outcome
  | .admitted _ => Outcome.next
  | .rejected _ => Outcome.reject 429 "Rate limit exceeded"

/-- Fetch-or-create of the caller's entry (`if (!userRequests ||
userRequests.resetTime < now)` followed by `requestCounts.set`): yields the
entry used for the decision and the map after the possible `set`. -/
def rlPick (m1 : RLMap) (userId : String) (now windowMs : Nat) :
    RLEntry × RLMap :=
  let fresh : RLEntry := RLEntry.mk 0 (now + windowMs)
  match m1 userId with
  | some e =>
    if e.resetTime < now then (fresh, rlSet m1 userId fresh) else (e, m1)
  | none => (fresh, rlSet m1 userId fresh)

/-- One invocation of the closure returned by `userRateLimit(maxRequests,
windowMinutes)`: clean expired entries, fetch or create the caller's entry,
reject when the counter has reached the maximum, otherwise increment the
counter and set the rate-limit headers. -/
def userRateLimitStep (maxRequests windowMinutes : Nat) (m : RLMap)
    (userId : String) (now : Nat) : RLDecision × RLMap :=
  let windowMs := windowMinutes * 60 * 1000
  let m1 := rlCleanup m now
  let picked := rlPick m1 userId now windowMs
  let entry := picked.1
  let m2 := picked.2
  if maxRequests ≤ entry.count then
    (RLDecision.rejected entry.resetTime, m2)
  else
    let e2 : RLEntry := RLEntry.mk (entry.count + 1) entry.resetTime
    (RLDecision.admitted
      (RLHeaders.mk maxRequests ((maxRequests : Int) - (e2.count : Int))
        ((e2.resetTime + 999) / 1000)),
     rlSet m2 userId e2)

/-- Running the rate limiter over a trace of requests (user id, timestamp),
pairing each decision with the requesting user. -/
def runAll (maxRequests windowMinutes : Nat) :
    List (String × Nat) → RLMap → List (String × RLDecision)
  | [], _ => []
  | (u, t) :: rest, m =>
    let r := userRateLimitStep maxRequests windowMinutes m u t
    (u, r.1) :: runAll maxRequests windowMinutes rest r.2

/-- Single-user fixed-window reference step: same window logic as the
implementation but on one user's optional entry. -/
def fwStep (maxRequests windowMs : Nat) (st : Option RLEntry) (now : Nat) :
    Bool × RLEntry :=
  let fresh : RLEntry := RLEntry.mk 0 (now + windowMs)
  let entry :=
    match st with
    | some e => if e.resetTime < now then fresh else e
    | none => fresh
  if maxRequests ≤ entry.count then (false, entry)
  else (true, RLEntry.mk (entry.count + 1) entry.resetTime)

/-- Single-user fixed-window reference run: the admit/reject decisions for one
user's request times. -/
def fwRunFrom (maxRequests windowMs : Nat) :
    List Nat → Option RLEntry → List Bool
  | [], _ => []
  | t :: ts, st =>
    let r := fwStep maxRequests windowMs st t
    r.1 :: fwRunFrom maxRequests windowMs ts (some r.2)

/-- The admit/reject decisions of a run that belong to one user. -/
def decisionsFor (u : String) (l : List (String × RLDecision)) : List Bool :=
  l.filterMap (fun p => if p.1 = u then some p.2.isAdmitted else none)

/-- The request times of a trace that belong to one user. -/
def timesFor (u : String) (l : List (String × Nat)) : List Nat :=
  l.filterMap (fun p => if p.1 = u then some p.2 else none)

/-- Timestamps of a trace are non-decreasing. -/
def timesMono : List (String × Nat) → Bool
  | [] => true
  | (_, t) :: rest => rest.all (fun p => t ≤ p.2) && timesMono rest

/-- Modelled from the claim's words: a sliding-window limiter rejects a
request at time `t` exactly when at least `maxRequests` prior requests fall
within the preceding `windowMs` milliseconds, that is, in `(t - windowMs, t]`. -/
def slidingWindowRejects (maxRequests windowMs : Nat) (priorTimes : List Nat)
    (t : Nat) : Bool :=
  maxRequests ≤ (priorTimes.filter (fun s => decide (t < s + windowMs))).length

/-! API quota (`checkApiQuota` in `backend/middleware/auth.js` and
`updateApiUsage` in `backend/models/user.js`). -/

/-- Subscription tiers of the User schema. -/
inductive SubscriptionType where
  | free
  | basic
  | premium
  | enterprise
deriving DecidableEq, Repr

/-- The `apiUsage` sub-document; `lastRequestDate` is the calendar day of the
last request (the `toDateString()` abstraction). -/
structure ApiUsage where
  dailyRequests : Nat
  monthlyRequests : Nat
  lastRequestDate : Option Nat
  quotaExceeded : Bool
deriving DecidableEq, Repr

/-- Daily limits of the `quotaLimits` table; `none` is `Infinity`. -/
def quotaDaily : SubscriptionType → Option Nat
  | .free => some 100
  | .basic => some 500
  | .premium => some 2000
  | .enterprise => none

/-- Monthly limits of the `quotaLimits` table; `none` is `Infinity`. -/
def quotaMonthly : SubscriptionType → Option Nat
  | .free => some 1000
  | .basic => some 10000
  | .premium => some 50000
  | .enterprise => none

/-- Strict comparison against a possibly infinite limit (`n > Infinity` is
false in JavaScript). -/
def exceedsLimit (n : Nat) : Option Nat → Bool
  | none => false
  | some l => decide (l < n)

/-- The `updateApiUsage` instance method: reset the daily counter to 1 on a
new calendar day and increment it otherwise, always increment the monthly
counter, and recompute `quotaExceeded` from the subscription's limits. -/
def updateApiUsage (u : ApiUsage) (sub : SubscriptionType) (today : Nat) :
    ApiUsage :=
  let daily := if u.lastRequestDate = some today then u.dailyRequests + 1 else 1
  let monthly := u.monthlyRequests + 1
  ApiUsage.mk daily monthly (some today)
    (exceedsLimit daily (quotaDaily sub) || exceedsLimit monthly (quotaMonthly sub))

/-- The `checkApiQuota` middleware: anonymous requests pass; otherwise
`updateApiUsage()` mutates the in-memory counters and then persists them with
`this.save()`, whose outcome is the `save` argument.  When the awaited save
rejects, the catch block fails open and calls `next()`, so the request is
admitted even if the freshly computed `quotaExceeded` flag is set; when the
save succeeds, the request is rejected with 429 when `quotaExceeded` is set.
The second component is the document's in-memory `apiUsage` afterwards, which
is mutated before the save in either case. -/
def checkApiQuota (userDoc : Option (ApiUsage × SubscriptionType))
    (today : Nat) (save : Except JsErr Unit) : Outcome × Option ApiUsage :=
  match userDoc with
  | none => (Outcome.next, none)
  | some (u, sub) =>
    let u2 := updateApiUsage u sub today
    match save with
    | Except.error _ => (Outcome.next, some u2)
    | Except.ok _ =>
      if u2.quotaExceeded then (Outcome.reject 429 "Quota exceeded", some u2)
      else (Outcome.next, some u2)

/-! Serialization (`toJSON` in `backend/models/user.js`). -/

/-- A JavaScript object as a partial map from property names to values. -/
def JsObj (α : Type) : Type := String → Option α

/-- JavaScript `delete obj[k]`. -/
def deleteField {α : Type} (o : JsObj α) (k : String) : JsObj α :=
  fun k1 => if k1 = k then none else o k1

/-- The `toJSON` instance method: `toObject` (the identity on the property
map) followed by deletion of the five sensitive fields. -/
def toJSON {α : Type} (o : JsObj α) : JsObj α :=
  deleteField (deleteField (deleteField (deleteField (deleteField o
    "password") "passwordResetToken") "passwordResetExpires")
    "emailVerificationToken") "emailVerificationExpires"

/-! Route handlers from `backend/routes/auth.js`.  Request-body strings use
`""` for an absent (falsy) field; database lookups and the results of
`bcrypt.compare` are passed in as arguments. -/

/-- The slice of the user document used by the login handler. -/
structure LoginUser where
  loginAttempts : Nat
  lastLoginAttempt : Option Nat
  lastLogin : Option Nat
deriving DecidableEq, Repr

/-- Password verification tail of the login handler: on failure increment
`loginAttempts` and stamp `lastLoginAttempt`; on success reset
`loginAttempts` to 0 and stamp `lastLogin`. -/
def loginVerify (user : LoginUser) (now : Nat) (pwValid : Bool) :
    Nat × Option LoginUser :=
  if pwValid then
    (200, some (LoginUser.mk 0 user.lastLoginAttempt (some now)))
  else
    (401, some (LoginUser.mk (user.loginAttempts + 1) (some now) user.lastLogin))

/-- The `POST /api/auth/login` handler: validate presence of credentials,
look the account up, refuse with 423 while the account is locked (5 or more
failed attempts and less than 30 minutes since the last one), then verify the
password.  Returns the HTTP status and the stored account state afterwards.
An account with 5 or more attempts but no recorded `lastLoginAttempt` makes
`getTime()` throw, which the catch block turns into a 500. -/
def login (email password : String) (now : Nat) (lookup : Option LoginUser)
    (pwValid : Bool) : Nat × Option LoginUser :=
  if email = "" ∨ password = "" then (400, lookup)
  else
    match lookup with
    | none => (401, none)
    | some user =>
      if 5 ≤ user.loginAttempts then
        match user.lastLoginAttempt with
        | none => (500, some user)
        | some t =>
          if now < t + 30 * 60 * 1000 then (423, some user)
          else loginVerify user now pwValid
      else loginVerify user now pwValid

/-- Request body of `POST /api/auth/signup` (only the fields the handler
reads; `""` encodes an absent field). -/
structure SignupBody where
  firstName : String
  lastName : String
  email : String
  phone : String
  password : String
  role : String
  location : String
deriving DecidableEq, Repr

/-- One chunk between separators of the route's email regex: non-empty and
free of whitespace (the split on `@` already excludes `@`). -/
def emailChunkOk (cs : List Char) : Bool :=
  decide (cs ≠ []) && cs.all (fun c => !c.isWhitespace)

/-- The route-level email test `/^[^\s@]+@[^\s@]+\.[^\s@]+$/`: exactly one
`@`, non-whitespace chunks on both sides, and a dot in the interior of the
domain part. -/
def emailRegexTest (s : String) : Bool :=
  match s.toList.splitOn '@' with
  | [u, d] => emailChunkOk u && emailChunkOk d && (d.drop 1).dropLast.contains '.'
  | _ => false

/-- Roles accepted by the User schema's `role` enum validator. -/
def roleEnumOk (role : String) : Bool :=
  ["individual", "organization", "researcher", "government", "ngo",
   "admin"].contains role

/-- Response of the signup handler: HTTP status, error label, the serialized
`user` object of the 201 body, and the signed token. -/
structure SignupResponse where
  status : Nat
  error : Option String
  user : Option (List (String × String))
  token : Option String
deriving DecidableEq, Repr

/-- The `POST /api/auth/signup` handler: 400 for a missing required field, a
failed route-level email test, or a password shorter than 8 characters; 409
when the lowercased email is already taken; then `newUser.save()` runs the
User-schema validators — the `role` enum validator is modelled exactly and
the remaining validators (name lengths, schema email and phone patterns) are
abstracted by `schemaOk` — and a validation failure is caught as 500;
otherwise 201 with the token and a user object without the password. -/
def signup (b : SignupBody) (emailTaken : String → Bool) (schemaOk : Bool)
    (newId createdAt tokenV : String) : SignupResponse :=
  if b.firstName = "" ∨ b.lastName = "" ∨ b.email = "" ∨ b.password = "" then
    SignupResponse.mk 400 (some "Missing required fields") none none
  else if emailRegexTest b.email = false then
    SignupResponse.mk 400 (some "Invalid email format") none none
  else if b.password.length < 8 then
    SignupResponse.mk 400 (some "Weak password") none none
  else if emailTaken b.email.toLower then
    SignupResponse.mk 409 (some "User already exists") none none
  else
    let roleV := if b.role = "" then "individual" else b.role
    if roleEnumOk roleV && schemaOk then
      SignupResponse.mk 201 none
        (some [("id", newId), ("firstName", b.firstName.trim),
               ("lastName", b.lastName.trim), ("email", b.email.toLower.trim),
               ("role", roleV), ("isVerified", "false"),
               ("createdAt", createdAt)])
        (some tokenV)
    else
      SignupResponse.mk 500 (some "Registration failed") none none

/-- Response of the forgot-password handler. -/
structure ForgotResponse where
  status : Nat
  success : Bool
  message : String
deriving DecidableEq, Repr

/-- The `POST /api/auth/forgot-password` handler: 400 when the email is
missing; otherwise the response is the fixed anti-enumeration message,
while a reset token and expiry are stored only when the account exists. -/
def forgotPassword (email : String) (userExists : Bool) (resetToken : String)
    (now : Nat) : ForgotResponse × Option (String × Nat) :=
  if email = "" then (ForgotResponse.mk 400 false "Email is required", none)
  else if userExists then
    (ForgotResponse.mk 200 true
      "If an account with this email exists, a password reset link has been sent.",
     some (resetToken, now + 60 * 60 * 1000))
  else
    (ForgotResponse.mk 200 true
      "If an account with this email exists, a password reset link has been sent.",
     none)

/-! The global error handler of `backend/server.js`. -/

/-- A JavaScript error as seen by the global handler: its `name`, optional
`code`, and optional own `status` field. -/
structure ErrObj where
  name : String
  code : Option String
  status : Option Nat
deriving DecidableEq, Repr

/-- The global Express error handler: Mongo connection errors map to 503,
`ValidationError` to 400, `JsonWebTokenError` to 401, `LIMIT_FILE_SIZE` to
413, and anything else to `error.status || 500` (a missing or zero status
yields 500). -/
def globalErrorHandler (e : ErrObj) : Nat :=
  if e.name = "MongoNetworkError" ∨ e.name = "MongoTimeoutError" then 503
  else if e.name = "ValidationError" then 400
  else if e.name = "JsonWebTokenError" then 401
  else if e.code = some "LIMIT_FILE_SIZE" then 413
  else
    match e.status with
    | some s => if s = 0 then 500 else s
    | none => 500

/-! Theorems. -/

/-- C10: for every user document, the serialized form produced by `toJSON`
contains none of `password`, `passwordResetToken`, `passwordResetExpires`,
`emailVerificationToken`, `emailVerificationExpires`, whatever values those
fields hold on the document. -/
theorem toJSON_excludes_sensitive_fields :
    ∀ (α : Type) (o : JsObj α),
      toJSON o "password" = none ∧
      toJSON o "passwordResetToken" = none ∧
      toJSON o "passwordResetExpires" = none ∧
      toJSON o "emailVerificationToken" = none ∧
      toJSON o "emailVerificationExpires" = none := by
  intro α o
  exact ⟨rfl, rfl, rfl, rfl, rfl⟩

/-- C9: for every forgot-password request that supplies an email (and absent
server errors), the HTTP status (200) and the whole visible response are
identical whether or not an account with that email exists. -/
theorem forgotPassword_noninterference :
    ∀ (email resetToken : String) (now : Nat), email ≠ "" →
      (forgotPassword email true resetToken now).1 =
        (forgotPassword email false resetToken now).1 ∧
      ((forgotPassword email true resetToken now).1).status = 200 := by
  intro email tok now h
  simp [forgotPassword, h]

/-- Witness for `forgotPassword_noninterference` at a concrete email. -/
theorem forgotPassword_noninterference_witness :
    (forgotPassword "a@b.co" true "tok" 0).1 =
      (forgotPassword "a@b.co" false "tok" 0).1 ∧
    ((forgotPassword "a@b.co" true "tok" 0).1).status = 200 :=
  forgotPassword_noninterference "a@b.co" "tok" 0 (by decide)

/-- C3, counterexample: the global error handler maps `MongoNetworkError` to
503, which lies outside the claimed status set 400/401/403/409/413/429/500. -/
theorem errorHandler_503_outside_claimed_set :
    globalErrorHandler (ErrObj.mk "MongoNetworkError" none none) = 503 ∧
    (503 : Nat) ∉ [400, 401, 403, 409, 413, 429, 500] := by
  exact ⟨rfl, by decide⟩

/-- C3, amended: the global error handler sends Mongo connection errors to
503; an error with no own status (or a zero one) lands in
503/400/401/413/500, and an error carrying a nonzero status `s` lands in
503/400/401/413 or is passed through as `s`. -/
theorem errorHandler_status_spec :
    ∀ e : ErrObj,
      (e.status = none → globalErrorHandler e ∈ [503, 400, 401, 413, 500]) ∧
      (∀ s : Nat, e.status = some s → s ≠ 0 →
        globalErrorHandler e ∈ [503, 400, 401, 413, s]) ∧
      ((e.name = "MongoNetworkError" ∨ e.name = "MongoTimeoutError") →
        globalErrorHandler e = 503) := by
  rintro ⟨n, c, st⟩
  refine ⟨?_, ?_, ?_⟩
  · rintro rfl
    simp only [globalErrorHandler]
    split_ifs <;> simp
  · rintro s rfl hs
    simp only [globalErrorHandler]
    split_ifs <;> simp [hs]
  · intro h
    simp only [globalErrorHandler]
    rw [if_pos h]

/-- Witness for `errorHandler_status_spec` at a concrete error object. -/
theorem errorHandler_status_spec_witness :
    globalErrorHandler (ErrObj.mk "SomeError" none none) ∈
      [503, 400, 401, 413, 500] :=
  (errorHandler_status_spec (ErrObj.mk "SomeError" none none)).1 rfl

/-- C8, counterexample: with two permission entries for the same resource,
`hasPermission` consults only the first, so it returns a falsy value even
though the permissions list contains an entry granting the action. -/
theorem hasPermission_misses_later_entry :
    (hasPermission "individual"
      [Permission.mk "chat" [], Permission.mk "chat" ["read"]]
      "chat" "read").truthy = false ∧
    ([Permission.mk "chat" [], Permission.mk "chat" ["read"]].any
      (fun p => p.resource == "chat" && p.actions.contains "read")) = true := by
  exact ⟨rfl, rfl⟩

/-- C8, amended: `hasPermission` is truthy for every resource and action when
the role is `admin`; for every other role it is truthy if and only if the
FIRST permissions entry whose resource matches exists and its actions include
the given action (entries shadowed by an earlier same-resource entry are
ignored). -/
theorem hasPermission_spec :
    ∀ (role : String) (perms : List Permission) (resource action : String),
      (role = "admin" → (hasPermission role perms resource action).truthy = true) ∧
      (role ≠ "admin" →
        ((hasPermission role perms resource action).truthy = true ↔
          ∃ l1 q l2, perms = l1 ++ q :: l2 ∧
            (∀ p ∈ l1, p.resource ≠ resource) ∧
            q.resource = resource ∧ action ∈ q.actions)) := by
  intro role perms resource action
  constructor
  · intro h
    simp [hasPermission, h, JsReturn.truthy]
  · intro hne
    simp only [hasPermission, if_neg hne]
    induction perms with
    | nil => simp [JsReturn.truthy]
    | cons p ps ih =>
      by_cases hp : p.resource = resource
      · rw [List.find?_cons_of_pos _ (by simp [hp])]
        simp only [JsReturn.truthy, List.elem_iff]
        constructor
        · intro hmem
          exact ⟨[], p, ps, rfl, by simp, hp, hmem⟩
        · rintro ⟨l1, q, l2, hdec, hmiss, hq, ha⟩
          cases l1 with
          | nil =>
            simp only [List.nil_append, List.cons.injEq] at hdec
            rw [hdec.1]
            exact ha
          | cons a l1 =>
            simp only [List.cons_append, List.cons.injEq] at hdec
            exact absurd hp (hdec.1 ▸ hmiss a (by simp))
      · rw [List.find?_cons_of_neg _ (by simp [hp])]
        rw [ih]
        constructor
        · rintro ⟨l1, q, l2, hdec, hmiss, hq, ha⟩
          refine ⟨p :: l1, q, l2, by rw [hdec, List.cons_append], ?_, hq, ha⟩
          intro r hr
          rcases List.mem_cons.mp hr with h1 | h1
          · rw [h1]; exact hp
          · exact hmiss r h1
        · rintro ⟨l1, q, l2, hdec, hmiss, hq, ha⟩
          cases l1 with
          | nil =>
            simp only [List.nil_append, List.cons.injEq] at hdec
            exact absurd (hdec.1 ▸ hq) hp
          | cons a l1 =>
            simp only [List.cons_append, List.cons.injEq] at hdec
            exact ⟨l1, q, l2, hdec.2, fun r hr => hmiss r (by simp [hr]), hq, ha⟩

/-- Witness for `hasPermission_spec`: an admin passes a concrete check. -/
theorem hasPermission_spec_witness :
    (hasPermission "admin" [] "sensors" "read").truthy = true :=
  (hasPermission_spec "admin" [] "sensors" "read").1 rfl

/-- C1, counterexample: the `auth` middleware rejects with status 500 when an
exception other than `JsonWebTokenError`/`TokenExpiredError` reaches its
catch block (for example a `NotBeforeError` thrown by `jwt.verify` for a
token with a future `nbf` claim, or a database failure in `findById`), so not
every failure response carries 401, 403 or 429. -/
theorem auth_rejects_with_500 :
    auth (some "tok") (Except.ok (Payload.mk 1 "e" "individual"))
      (Except.error JsErr.other) (Except.ok ()) =
      Outcome.reject 500 "Authentication error" ∧
    ¬ (Outcome.reject 500 "Authentication error").statusIn [401, 403, 429] :=
  ⟨rfl, by decide⟩

/-- C1, amended: every failure response of the middleware chain carries
status 401, 403, 429 or 500; the 500 can arise only from `auth`'s generic
catch block, `optionalAuth` never rejects, `authorize`, `requirePermission`
and `requireEmailVerification` produce only 401/403, and `checkApiQuota` and
`userRateLimit` produce only 429. -/
theorem middleware_reject_statuses :
    ∀ (token : Option String) (verify : Except JsErr Payload)
      (findUser : Except JsErr (Option AuthUserDoc)) (save : Except JsErr Unit)
      (roles : List String) (user : Option Payload)
      (resource action : String) (permDoc : Option PermUserDoc)
      (verDoc : Option Bool)
      (quotaDoc : Option (ApiUsage × SubscriptionType)) (today : Nat)
      (qsave : Except JsErr Unit)
      (mx wmin : Nat) (m : RLMap) (uid : String) (now : Nat),
      (auth token verify findUser save).statusIn [401, 500] ∧
      (optionalAuth token verify findUser).2 = Outcome.next ∧
      (authorize roles user).statusIn [401, 403] ∧
      (requirePermission resource action permDoc).statusIn [401, 403] ∧
      (requireEmailVerification verDoc).statusIn [401, 403] ∧
      ((checkApiQuota quotaDoc today qsave).1).statusIn [429] ∧
      (rlOutcome (userRateLimitStep mx wmin m uid now).1).statusIn [429] := by
  intro token verify findUser save roles user resource action permDoc verDoc
    quotaDoc today qsave mx wmin m uid now
  refine ⟨?_, ?_, ?_, ?_, ?_, ?_, ?_⟩
  · rcases token with _ | t
    · simp [auth, authTry, Outcome.statusIn]
    · rcases verify with e | p
      · cases e <;> simp [auth, authTry, Outcome.statusIn]
      · rcases findUser with e | u
        · cases e <;> simp [auth, authTry, Outcome.statusIn]
        · rcases u with _ | doc
          · simp [auth, authTry, Outcome.statusIn]
          · obtain ⟨b⟩ := doc
            rcases save with e | s
            · cases b
              · simp [auth, authTry, Outcome.statusIn]
              · cases e <;> simp [auth, authTry, Outcome.statusIn]
            · cases b <;> simp [auth, authTry, Outcome.statusIn]
  · rcases token with _ | t
    · rfl
    · rcases verify with e | p
      · rfl
      · rcases findUser with e | u
        · rfl
        · rcases u with _ | d <;> rfl
  · rcases user with _ | u
    · simp [authorize, Outcome.statusIn]
    · simp only [authorize]
      split <;> simp [Outcome.statusIn]
  · rcases permDoc with _ | d
    · simp [requirePermission, Outcome.statusIn]
    · simp only [requirePermission]
      split <;> simp [Outcome.statusIn]
  · rcases verDoc with _ | b
    · simp [requireEmailVerification, Outcome.statusIn]
    · cases b <;> simp [requireEmailVerification, Outcome.statusIn]
  · rcases quotaDoc with _ | ⟨u, sub⟩
    · simp [checkApiQuota, Outcome.statusIn]
    · rcases qsave with e | v
      · simp [checkApiQuota, Outcome.statusIn]
      · simp only [checkApiQuota]
        split <;> simp [Outcome.statusIn]
  · cases h : (userRateLimitStep mx wmin m uid now).1 <;>
      simp [rlOutcome, Outcome.statusIn]

/-- C2: while an account has 5 or more failed attempts and less than 30
minutes have passed since the last one, login answers 423 without consulting
the password-comparison result; once the lockout window has elapsed the
answer is never 423; and any successful (200) login stores a zero
failed-attempt counter. -/
theorem login_lockout_spec :
    ∀ (email password : String) (now : Nat) (user : LoginUser) (t : Nat)
      (pwValid : Bool),
      email ≠ "" → password ≠ "" →
      ((5 ≤ user.loginAttempts → user.lastLoginAttempt = some t →
          now < t + 30 * 60 * 1000 →
          login email password now (some user) pwValid = (423, some user) ∧
          login email password now (some user) true =
            login email password now (some user) false) ∧
       (5 ≤ user.loginAttempts → user.lastLoginAttempt = some t →
          ¬ now < t + 30 * 60 * 1000 →
          (login email password now (some user) pwValid).1 ≠ 423) ∧
       ((login email password now (some user) pwValid).1 = 200 →
          ∃ v, (login email password now (some user) pwValid).2 = some v ∧
            v.loginAttempts = 0)) := by
  intro email password now user t pwValid he hp
  have hcred : ¬ (email = "" ∨ password = "") := by
    rintro (h | h) <;> [exact he h; exact hp h]
  refine ⟨?_, ?_, ?_⟩
  · intro h5 hlast hwin
    simp [login, if_neg hcred, if_pos h5, hlast, if_pos hwin]
  · intro h5 hlast hwin
    simp only [login, if_neg hcred, if_pos h5, hlast, if_neg hwin, loginVerify]
    cases pwValid <;> simp
  · intro h200
    simp only [login, if_neg hcred] at h200 ⊢
    by_cases h5 : 5 ≤ user.loginAttempts
    · simp only [if_pos h5] at h200 ⊢
      rcases hl : user.lastLoginAttempt with _ | s
      all_goals simp only [hl] at h200 ⊢
      · simp at h200
      · by_cases hw : now < s + 30 * 60 * 1000
        · simp only [if_pos hw] at h200
          simp at h200
        · simp only [if_neg hw] at h200 ⊢
          cases pwValid <;> simp_all [loginVerify]
    · simp only [if_neg h5] at h200 ⊢
      cases pwValid <;> simp_all [loginVerify]

/-- Witness for `login_lockout_spec`: a locked account at a concrete input
gets 423 and the password result is not consulted. -/
theorem login_lockout_spec_witness :
    login "a@b.co" "pw" 1000 (some (LoginUser.mk 5 (some 500) none)) true =
      (423, some (LoginUser.mk 5 (some 500) none)) ∧
    login "a@b.co" "pw" 1000 (some (LoginUser.mk 5 (some 500) none)) true =
      login "a@b.co" "pw" 1000 (some (LoginUser.mk 5 (some 500) none)) false :=
  (login_lockout_spec "a@b.co" "pw" 1000 (LoginUser.mk 5 (some 500) none) 500
    true (by decide) (by decide)).1 (by decide) rfl (by decide)

/-- Looking up the picked user after `rlPick` yields exactly the picked entry. -/
theorem rlPick_lookup_self (m1 : RLMap) (u : String) (now w : Nat) :
    (rlPick m1 u now w).2 u = some (rlPick m1 u now w).1 := by
  unfold rlPick
  rcases h : m1 u with _ | e
  · simp [rlSet]
  · by_cases hr : e.resetTime < now
    · simp [hr, rlSet]
    · simp [hr, h]

/-- `rlPick` leaves other users' entries untouched. -/
theorem rlPick_lookup_ne (m1 : RLMap) (u u1 : String) (now w : Nat)
    (h : u1 ≠ u) : (rlPick m1 u now w).2 u1 = m1 u1 := by
  unfold rlPick
  rcases hm : m1 u with _ | e
  · simp [rlSet, h]
  · by_cases hr : e.resetTime < now
    · simp [hr, rlSet, h]
    · simp [hr]

/-- The picked entry is the normalised current entry, or a fresh window. -/
theorem rlPick_entry (m1 : RLMap) (u : String) (now w : Nat) :
    (rlPick m1 u now w).1 =
      (match rlNorm now (m1 u) with
       | some e => e
       | none => RLEntry.mk 0 (now + w)) := by
  unfold rlPick rlNorm
  rcases hm : m1 u with _ | e
  · rfl
  · by_cases hr : e.resetTime < now <;> simp [hr]

/-- C7: whenever `userRateLimit` admits a request it sets the three
`X-RateLimit-*` headers, with the limit equal to `maxRequests`, the remaining
budget equal to `maxRequests` minus the post-increment count of the stored
entry, and hence non-negative. -/
theorem userRateLimit_headers_spec :
    ∀ (mx wmin : Nat) (m : RLMap) (uid : String) (now : Nat)
      (h : RLHeaders) (m2 : RLMap),
      userRateLimitStep mx wmin m uid now = (RLDecision.admitted h, m2) →
      h.limit = mx ∧ 0 ≤ h.remaining ∧
      ∃ e, m2 uid = some e ∧ e.count ≤ mx ∧
        h.remaining = (mx : Int) - (e.count : Int) ∧
        h.reset = (e.resetTime + 999) / 1000 := by
  intro mx wmin m uid now h m2 hstep
  simp only [userRateLimitStep] at hstep
  split at hstep
  · simp at hstep
  · rename_i hlt
    rw [Prod.mk.injEq] at hstep
    obtain ⟨hh, hm2⟩ := hstep
    injection hh with hh
    subst hh
    subst hm2
    refine ⟨rfl, ?_,
      RLEntry.mk ((rlPick (rlCleanup m now) uid now (wmin * 60 * 1000)).1.count + 1)
        ((rlPick (rlCleanup m now) uid now (wmin * 60 * 1000)).1.resetTime),
      ?_, ?_, rfl, rfl⟩
    · dsimp only
      omega
    · simp [rlSet]
    · dsimp only
      omega

/-- Witness for `userRateLimit_headers_spec`: a first request against a fresh
limiter of 60 requests per 60 minutes gets headers 60 / 59 / 3600. -/
theorem userRateLimit_headers_spec_witness :
    (RLHeaders.mk 60 59 3600).limit = 60 ∧
    0 ≤ (RLHeaders.mk 60 59 3600).remaining ∧
    ∃ e, (userRateLimitStep 60 60 (fun _ => none) "u" 0).2 "u" = some e ∧
      e.count ≤ 60 ∧
      (RLHeaders.mk 60 59 3600).remaining = (60 : Int) - (e.count : Int) ∧
      (RLHeaders.mk 60 59 3600).reset = (e.resetTime + 999) / 1000 :=
  userRateLimit_headers_spec 60 60 (fun _ => none) "u" 0
    (RLHeaders.mk 60 59 3600)
    (userRateLimitStep 60 60 (fun _ => none) "u" 0).2 rfl

/-- Structural unfolding of `checkApiQuota` on an authenticated user whose
counter save succeeds. -/
theorem checkApiQuota_some_ok (u : ApiUsage) (sub : SubscriptionType)
    (today : Nat) :
    checkApiQuota (some (u, sub)) today (Except.ok ()) =
      ((if (updateApiUsage u sub today).quotaExceeded = true
        then Outcome.reject 429 "Quota exceeded" else Outcome.next),
       some (updateApiUsage u sub today)) := by
  simp only [checkApiQuota]
  by_cases h : (updateApiUsage u sub today).quotaExceeded = true
  · simp [h]
  · simp [h]

/-- The recomputed `quotaExceeded` flag, tier by tier. -/
theorem updateApiUsage_quotaExceeded (u : ApiUsage) (sub : SubscriptionType)
    (today : Nat) :
    (updateApiUsage u sub today).quotaExceeded =
      (match sub with
       | SubscriptionType.free =>
           decide (100 < (updateApiUsage u sub today).dailyRequests) ||
             decide (1000 < (updateApiUsage u sub today).monthlyRequests)
       | SubscriptionType.basic =>
           decide (500 < (updateApiUsage u sub today).dailyRequests) ||
             decide (10000 < (updateApiUsage u sub today).monthlyRequests)
       | SubscriptionType.premium =>
           decide (2000 < (updateApiUsage u sub today).dailyRequests) ||
             decide (50000 < (updateApiUsage u sub today).monthlyRequests)
       | SubscriptionType.enterprise => false) := by
  cases sub <;> rfl

/-- C6, counterexample: when `updateApiUsage()`'s save rejects, the catch
block of `checkApiQuota` calls `next()`, so a free-tier request whose updated
daily counter (201) exceeds the limit (100) is admitted instead of being
rejected with 429 — the quota check is not an exact biconditional on the
counters. -/
theorem checkApiQuota_fail_open :
    (checkApiQuota
        (some (ApiUsage.mk 200 500 (some 5) true, SubscriptionType.free)) 5
        (Except.error JsErr.other)).1 = Outcome.next ∧
    (updateApiUsage (ApiUsage.mk 200 500 (some 5) true)
        SubscriptionType.free 5).dailyRequests = 201 ∧
    (updateApiUsage (ApiUsage.mk 200 500 (some 5) true)
        SubscriptionType.free 5).quotaExceeded = true ∧
    100 < 201 := by
  exact ⟨rfl, rfl, rfl, by decide⟩

/-- C6, amended: anonymous requests always pass `checkApiQuota`; for an
authenticated user the in-memory counters are updated first (daily reset to
1 on a new calendar day, incremented otherwise; monthly always incremented);
when the counter save succeeds the request is rejected with 429 exactly when
the updated counters exceed the tier's limits — free 100/1000, basic
500/10000, premium 2000/50000, enterprise unlimited; when the save fails the
catch block fails open and the request is admitted regardless of the
counters. -/
theorem checkApiQuota_spec :
    ∀ (u : ApiUsage) (sub : SubscriptionType) (today daily monthly : Nat)
      (save : Except JsErr Unit),
      daily = (if u.lastRequestDate = some today then u.dailyRequests + 1 else 1) →
      monthly = u.monthlyRequests + 1 →
      (checkApiQuota none today save).1 = Outcome.next ∧
      (∀ e : JsErr,
        (checkApiQuota (some (u, sub)) today (Except.error e)).1 =
          Outcome.next) ∧
      (checkApiQuota (some (u, sub)) today (Except.ok ())).1 =
        (if (match sub with
             | SubscriptionType.free =>
                 decide (100 < daily) || decide (1000 < monthly)
             | SubscriptionType.basic =>
                 decide (500 < daily) || decide (10000 < monthly)
             | SubscriptionType.premium =>
                 decide (2000 < daily) || decide (50000 < monthly)
             | SubscriptionType.enterprise => false) = true
         then Outcome.reject 429 "Quota exceeded" else Outcome.next) ∧
      (checkApiQuota (some (u, sub)) today save).2 =
        some (ApiUsage.mk daily monthly (some today)
          (match sub with
           | SubscriptionType.free =>
               decide (100 < daily) || decide (1000 < monthly)
           | SubscriptionType.basic =>
               decide (500 < daily) || decide (10000 < monthly)
           | SubscriptionType.premium =>
               decide (2000 < daily) || decide (50000 < monthly)
           | SubscriptionType.enterprise => false)) := by
  intro u sub today daily monthly save hd hm
  subst hd
  subst hm
  have hupd : updateApiUsage u sub today =
      ApiUsage.mk
        (if u.lastRequestDate = some today then u.dailyRequests + 1 else 1)
        (u.monthlyRequests + 1) (some today)
        (updateApiUsage u sub today).quotaExceeded := by
    cases sub <;> rfl
  refine ⟨rfl, fun e => rfl, ?_, ?_⟩
  · rw [checkApiQuota_some_ok]
    dsimp only
    rw [updateApiUsage_quotaExceeded]
    cases sub <;> rfl
  · rcases save with e | v
    · have hred : checkApiQuota (some (u, sub)) today (Except.error e) =
          (Outcome.next, some (updateApiUsage u sub today)) := rfl
      rw [hred]
      dsimp only
      rw [hupd, updateApiUsage_quotaExceeded]
      cases sub <;> rfl
    · cases v
      rw [checkApiQuota_some_ok]
      dsimp only
      rw [hupd, updateApiUsage_quotaExceeded]
      cases sub <;> rfl

/-- Witness for `checkApiQuota_spec`: a free-tier user's first request of a
day is admitted with counters 1/1 when the save succeeds, and a request with
a failing save passes through. -/
theorem checkApiQuota_spec_witness :
    (checkApiQuota none 5 (Except.ok ())).1 = Outcome.next ∧
    (checkApiQuota (some (ApiUsage.mk 0 0 none false,
        SubscriptionType.free)) 5 (Except.error JsErr.other)).1 =
      Outcome.next ∧
    (checkApiQuota (some (ApiUsage.mk 0 0 none false,
        SubscriptionType.free)) 5 (Except.ok ())).1 =
      (if (decide (100 < 1) || decide (1000 < 1)) = true
       then Outcome.reject 429 "Quota exceeded" else Outcome.next) ∧
    (checkApiQuota (some (ApiUsage.mk 0 0 none false,
        SubscriptionType.free)) 5 (Except.ok ())).2 =
      some (ApiUsage.mk 1 1 (some 5) (decide (100 < 1) || decide (1000 < 1))) :=
  have h := checkApiQuota_spec (ApiUsage.mk 0 0 none false)
    SubscriptionType.free 5 1 1 (Except.ok ()) (by decide) rfl
  ⟨h.1, h.2.1 JsErr.other, h.2.2.1, h.2.2.2⟩

/-- C5, counterexample: a signup request whose four required fields are all
present and valid (email passes the route test, password has 8 characters)
and whose email is not taken still gets a 500, not a 201, when its `role` is
not one of the schema's enum values: `newUser.save()` raises a mongoose
`ValidationError` that the catch block turns into 500. -/
theorem signup_invalid_role_500 :
    (signup (SignupBody.mk "Alice" "Brown" "a@b.co" "" "longpass8" "superuser" "")
      (fun _ => false) true "id1" "t0" "tok").status = 500 ∧
    emailRegexTest "a@b.co" = true ∧
    ¬ ("longpass8".length < 8) ∧
    roleEnumOk "superuser" = false ∧
    (signup (SignupBody.mk "Alice" "Brown" "a@b.co" "" "longpass8" "superuser" "")
      (fun _ => false) true "id1" "t0" "tok").status ≠ 201 := by
  refine ⟨rfl, rfl, by decide, rfl, by decide⟩

/-- C5, amended: signup returns 400 exactly when a required field is missing,
the email fails the route-level format test, or the password is shorter than
8 characters; 409 exactly when, past those checks, the lowercased email is
already taken; 201 exactly when additionally the saved document passes the
User-schema validators (in particular its role is one of the schema's enum
values), in which case the response carries the token and a user object
without a password field; a schema-validation failure yields 500 instead. -/
theorem signup_spec :
    ∀ (b : SignupBody) (taken : String → Bool) (schemaOk : Bool)
      (newId createdAt tokenV : String),
      ((signup b taken schemaOk newId createdAt tokenV).status = 400 ↔
        (b.firstName = "" ∨ b.lastName = "" ∨ b.email = "" ∨ b.password = "" ∨
         emailRegexTest b.email = false ∨ b.password.length < 8)) ∧
      ((signup b taken schemaOk newId createdAt tokenV).status = 409 ↔
        (¬ (b.firstName = "" ∨ b.lastName = "" ∨ b.email = "" ∨
            b.password = "" ∨ emailRegexTest b.email = false ∨
            b.password.length < 8) ∧
         taken b.email.toLower = true)) ∧
      ((signup b taken schemaOk newId createdAt tokenV).status = 201 ↔
        (¬ (b.firstName = "" ∨ b.lastName = "" ∨ b.email = "" ∨
            b.password = "" ∨ emailRegexTest b.email = false ∨
            b.password.length < 8) ∧
         taken b.email.toLower = false ∧
         (roleEnumOk (if b.role = "" then "individual" else b.role) &&
           schemaOk) = true)) ∧
      ((signup b taken schemaOk newId createdAt tokenV).status = 201 →
        (signup b taken schemaOk newId createdAt tokenV).token = some tokenV ∧
        ∃ l, (signup b taken schemaOk newId createdAt tokenV).user = some l ∧
          List.lookup "password" l = none) := by
  intro b taken schemaOk newId createdAt tokenV
  simp only [signup]
  split_ifs with h1 h2 h3 h4 h5 <;>
    refine ⟨?_, ?_, ?_, ?_⟩ <;>
    simp_all <;>
    try tauto
  all_goals
    intro a b1 h
    rcases h with ⟨rfl, h⟩ | ⟨rfl, h⟩ | ⟨rfl, h⟩ | ⟨rfl, h⟩ | ⟨rfl, h⟩ | ⟨rfl, h⟩ | ⟨rfl, h⟩ <;> decide

/-- Witness for `signup_spec`: a fully valid signup at a concrete input
yields 201 with the token and no password key in the user object. -/
theorem signup_spec_witness :
    (signup (SignupBody.mk "Alice" "Brown" "a@b.co" "" "longpass8" "" "")
        (fun _ => false) true "id1" "t0" "tok").token = some "tok" ∧
    ∃ l, (signup (SignupBody.mk "Alice" "Brown" "a@b.co" "" "longpass8" "" "")
        (fun _ => false) true "id1" "t0" "tok").user = some l ∧
      List.lookup "password" l = none :=
  (signup_spec (SignupBody.mk "Alice" "Brown" "a@b.co" "" "longpass8" "" "")
    (fun _ => false) true "id1" "t0" "tok").2.2.2 rfl

/-- Normalisation is idempotent. -/
theorem rlNorm_idem (t : Nat) (x : Option RLEntry) :
    rlNorm t (rlNorm t x) = rlNorm t x := by
  rcases x with _ | e
  · rfl
  · by_cases h : e.resetTime < t <;> simp [rlNorm, h]

/-- Entries that normalise equally at one time normalise equally at every
later time. -/
theorem rlNorm_mono {t1 t2 : Nat} (h12 : t1 ≤ t2) {x y : Option RLEntry}
    (h : rlNorm t1 x = rlNorm t1 y) : rlNorm t2 x = rlNorm t2 y := by
  rcases x with _ | e <;> rcases y with _ | f
  · rfl
  · by_cases hf : f.resetTime < t1
    · have hf2 : f.resetTime < t2 := lt_of_lt_of_le hf h12
      simp [rlNorm, hf2]
    · simp [rlNorm, hf] at h
  · by_cases he : e.resetTime < t1
    · have he2 : e.resetTime < t2 := lt_of_lt_of_le he h12
      simp [rlNorm, he2]
    · simp [rlNorm, he] at h
  · by_cases he : e.resetTime < t1 <;> by_cases hf : f.resetTime < t1
    · have he2 : e.resetTime < t2 := lt_of_lt_of_le he h12
      have hf2 : f.resetTime < t2 := lt_of_lt_of_le hf h12
      simp [rlNorm, he2, hf2]
    · simp [rlNorm, he, hf] at h
    · simp [rlNorm, he, hf] at h
    · simp only [rlNorm, if_neg he, if_neg hf, Option.some.injEq] at h
      rw [h]

/-- The fixed-window step only depends on the normalised entry. -/
theorem fwStep_norm (mx w : Nat) (st : Option RLEntry) (now : Nat) :
    fwStep mx w (rlNorm now st) now = fwStep mx w st now := by
  rcases st with _ | e
  · rfl
  · by_cases h : e.resetTime < now <;> simp [rlNorm, fwStep, h]

/-- The middleware's admit/reject decision matches the single-user
fixed-window step on the caller's current entry. -/
theorem step_decision (mx wmin : Nat) (m : RLMap) (u : String) (now : Nat) :
    (userRateLimitStep mx wmin m u now).1.isAdmitted =
      (fwStep mx (wmin * 60 * 1000) (m u) now).1 := by
  rcases hn : m u with _ | e
  · simp only [userRateLimitStep, rlPick, rlCleanup, hn, fwStep]
    split <;> rfl
  · by_cases hr : e.resetTime < now
    · simp only [userRateLimitStep, rlPick, rlCleanup, hn, if_pos hr, fwStep]
      split <;> rfl
    · simp only [userRateLimitStep, rlPick, rlCleanup, hn, if_neg hr, fwStep]
      split <;> rfl

/-- After a step, the caller's stored entry is the fixed-window step result. -/
theorem step_map_self (mx wmin : Nat) (m : RLMap) (u : String) (now : Nat) :
    (userRateLimitStep mx wmin m u now).2 u =
      some (fwStep mx (wmin * 60 * 1000) (m u) now).2 := by
  rcases hn : m u with _ | e
  · simp only [userRateLimitStep, rlPick, rlCleanup, hn, fwStep]
    split <;> simp [rlSet]
  · by_cases hr : e.resetTime < now
    · simp only [userRateLimitStep, rlPick, rlCleanup, hn, if_pos hr, fwStep]
      split <;> simp [rlSet]
    · simp only [userRateLimitStep, rlPick, rlCleanup, hn, if_neg hr, fwStep]
      split <;> simp [rlSet, rlCleanup, hn, hr]

/-- A step leaves other users' entries normalised but otherwise unchanged. -/
theorem step_map_ne (mx wmin : Nat) (m : RLMap) (u : String) (now : Nat)
    (u1 : String) (hne : u1 ≠ u) :
    (userRateLimitStep mx wmin m u now).2 u1 = rlNorm now (m u1) := by
  rcases hn : m u with _ | e
  · simp only [userRateLimitStep, rlPick, rlCleanup, hn]
    split <;> simp [rlSet, hne, rlNorm, rlCleanup]
  · by_cases hr : e.resetTime < now
    · simp only [userRateLimitStep, rlPick, rlCleanup, hn, if_pos hr]
      split <;> simp [rlSet, hne, rlNorm, rlCleanup]
    · simp only [userRateLimitStep, rlPick, rlCleanup, hn, if_neg hr]
      split <;> simp [rlSet, hne, rlNorm, rlCleanup]

/-- Decisions of a run restricted to one user, cons case. -/
theorem decisionsFor_cons (u u0 : String) (d : RLDecision)
    (l : List (String × RLDecision)) :
    decisionsFor u ((u0, d) :: l) =
      if u0 = u then d.isAdmitted :: decisionsFor u l
      else decisionsFor u l := by
  simp only [decisionsFor, List.filterMap_cons]
  split <;> simp_all

/-- Times of a trace restricted to one user, cons case. -/
theorem timesFor_cons (u u0 : String) (t : Nat) (l : List (String × Nat)) :
    timesFor u ((u0, t) :: l) =
      if u0 = u then t :: timesFor u l else timesFor u l := by
  simp only [timesFor, List.filterMap_cons]
  split <;> simp_all

/-- Generalised refinement: running the map-based limiter over a
time-monotone trace from a map that agrees (up to expiry) with per-user
states produces, for every user, exactly the single-user fixed-window
decisions over that user's request times. -/
theorem runAll_fw_general (mx wmin : Nat) :
    ∀ (trace : List (String × Nat)) (m σ : RLMap) (T : Nat),
      timesMono trace = true →
      (∀ p ∈ trace, T ≤ p.2) →
      (∀ v, rlNorm T (m v) = rlNorm T (σ v)) →
      ∀ u, decisionsFor u (runAll mx wmin trace m) =
        fwRunFrom mx (wmin * 60 * 1000) (timesFor u trace) (σ u) := by
  intro trace
  induction trace with
  | nil => intro m σ T hmono hT hagree u; rfl
  | cons p rest ih =>
    obtain ⟨u0, t0⟩ := p
    intro m σ T hmono hT hagree u
    have hmono2 : timesMono rest = true := by
      simp only [timesMono, Bool.and_eq_true] at hmono
      exact hmono.2
    have hall : ∀ q ∈ rest, t0 ≤ q.2 := by
      simp only [timesMono, Bool.and_eq_true, List.all_eq_true,
        decide_eq_true_eq] at hmono
      exact hmono.1
    have hT0 : T ≤ t0 := hT (u0, t0) (List.mem_cons_self _ _)
    have hagree0 : ∀ v, rlNorm t0 (m v) = rlNorm t0 (σ v) :=
      fun v => rlNorm_mono hT0 (hagree v)
    have hfw : fwStep mx (wmin * 60 * 1000) (m u0) t0 =
        fwStep mx (wmin * 60 * 1000) (σ u0) t0 := by
      rw [← fwStep_norm mx (wmin * 60 * 1000) (m u0) t0,
        ← fwStep_norm mx (wmin * 60 * 1000) (σ u0) t0, hagree0 u0]
    have hagree2 : ∀ v,
        rlNorm t0 ((userRateLimitStep mx wmin m u0 t0).2 v) =
          rlNorm t0 ((fun v1 => if v1 = u0
            then some (fwStep mx (wmin * 60 * 1000) (σ u0) t0).2
            else σ v1) v) := by
      intro v
      by_cases hv : v = u0
      · subst hv
        rw [step_map_self, hfw]
        simp
      · rw [step_map_ne mx wmin m u0 t0 v hv, rlNorm_idem]
        simp only [if_neg hv]
        exact hagree0 v
    have hrec := ih (userRateLimitStep mx wmin m u0 t0).2
      (fun v1 => if v1 = u0
        then some (fwStep mx (wmin * 60 * 1000) (σ u0) t0).2
        else σ v1) t0 hmono2 hall hagree2
    simp only [runAll, decisionsFor_cons, timesFor_cons]
    by_cases hu : u0 = u
    · subst hu
      simp only [if_pos rfl, fwRunFrom]
      rw [step_decision, hfw, hrec u0]
      simp
    · simp only [if_neg hu]
      rw [hrec u]
      dsimp only
      rw [if_neg (fun h => hu h.symm)]

/-- C4, counterexample: with `maxRequests = 2` and a 1-minute window, the
requests of one user at 0 ms, 54 s, 66 s and 72 s are all admitted, although
two prior requests (54 s, 66 s) fall within the minute preceding the fourth
request, so a sliding-window counter would reject it: the implementation is
a fixed-window counter keyed on `resetTime`, not a sliding window. -/
theorem userRateLimit_not_sliding_window :
    timesMono [("u", 0), ("u", 54000), ("u", 66000), ("u", 72000)] = true ∧
    slidingWindowRejects 2 60000 [0, 54000, 66000] 72000 = true ∧
    decisionsFor "u" (runAll 2 1
      [("u", 0), ("u", 54000), ("u", 66000), ("u", 72000)]
      (fun _ => none)) = [true, true, true, true] := by
  exact ⟨rfl, rfl, rfl⟩

/-- C4, amended: `userRateLimit` keeps a process-local in-memory map and
implements a per-user fixed-window counter: a window of `windowMinutes`
starts at a user's first request after the previous window expired, and a
request is rejected with 429 exactly when the count of requests admitted in
the current window has reached `maxRequests` (the single-user reference
`fwRunFrom`); decisions for a user depend only on that user's requests. -/
theorem userRateLimit_fixed_window :
    ∀ (mx wmin : Nat) (trace : List (String × Nat)) (u : String),
      timesMono trace = true →
      decisionsFor u (runAll mx wmin trace (fun _ => none)) =
        fwRunFrom mx (wmin * 60 * 1000) (timesFor u trace) none :=
  fun mx wmin trace u hm =>
    runAll_fw_general mx wmin trace (fun _ => none) (fun _ => none) 0 hm
      (fun _ _ => Nat.zero_le _) (fun _ => rfl) u

/-- Witness for `userRateLimit_fixed_window` on a concrete two-user trace. -/
theorem userRateLimit_fixed_window_witness :
    decisionsFor "u" (runAll 1 1 [("u", 0), ("v", 5), ("u", 10)]
        (fun _ => none)) =
      fwRunFrom 1 (1 * 60 * 1000)
        (timesFor "u" [("u", 0), ("v", 5), ("u", 10)]) none :=
  userRateLimit_fixed_window 1 1 [("u", 0), ("v", 5), ("u", 10)] "u"
    (by decide)

end Salyte
